import Mathlib

/-!
Shallow embedding of the `rand-split` library of splittable pseudorandom
generators, together with theorems settling the frozen claims about it.

Machine integers are modelled as `Nat` with explicit reduction modulo
`2 ^ 64` (for `u64`/`usize`) or `2 ^ 32` (for `u32`) wherever the Rust
code performs wrapping arithmetic.  Each definition is translated from
the corresponding item of the source; the source file and item are named
in its doc comment.
-/

/-- Wrapping 64-bit addition, the model of `u64::wrapping_add`. -/
def wadd (x y : Nat) : Nat := (x + y) % 2 ^ 64

/-- Wrapping 32-bit addition, the model of `u32::wrapping_add`. -/
def wadd32 (x y : Nat) : Nat := (x + y) % 2 ^ 32

/-- Model of `u64::rotate_left` for values below `2 ^ 64`. -/
def rotl64 (x n : Nat) : Nat := ((x <<< n) % 2 ^ 64) ||| (x >>> (64 - n))

/-- Model of `u32::rotate_left` for values below `2 ^ 32`. -/
def rotl32 (x n : Nat) : Nat := ((x <<< n) % 2 ^ 32) ||| (x >>> (32 - n))

/-- A quadruple of machine words.  It models the four mixing registers of
the Sip-style round, the `[u32; 4]` blocks of the Chaskey backend, and the
`[u64; 4]` seed of the TwoLCG backend. -/
structure V4 where
  v0 : Nat
  v1 : Nat
  v2 : Nat
  v3 : Nat
deriving DecidableEq

/-
The SipHash-based backend, from `src/siprng.rs`.
-/

/-- Constant `C0` of `src/siprng.rs`. -/
def sipC0 : Nat := 0x736f6d6570736575

/-- Constant `C1` of `src/siprng.rs`. -/
def sipC1 : Nat := 0x646f72616e646f6d

/-- Constant `C2` of `src/siprng.rs`. -/
def sipC2 : Nat := 0x6c7967656e657261

/-- Constant `C3` of `src/siprng.rs`. -/
def sipC3 : Nat := 0x7465646279746573

/-- The round of `src/siprng.rs` (`sipround!`), translated statement by
statement.  Note that its final statement assigns `rotl64 v0 32` to `v2`. -/
def sipround (s : V4) : V4 :=
  let v0 := wadd s.v0 s.v1
  let v2 := wadd s.v2 s.v3
  let v1 := rotl64 s.v1 13
  let v3 := rotl64 s.v3 16
  let v1 := v1 ^^^ v0
  let v3 := v3 ^^^ v2
  let v0 := rotl64 v0 32
  let v2 := wadd v2 v1
  let v0 := wadd v0 v3
  let v1 := rotl64 v1 17
  let v3 := rotl64 v3 21
  let v1 := v1 ^^^ v2
  let v3 := v3 ^^^ v0
  let v2 := rotl64 v0 32
  ⟨v0, v1, v2, v3⟩

/-- The SipHash reference round, which the spec takes as ground truth for
comparison with `sipround`: identical to `sipround` except that its final
statement rotates the accumulated `v2` itself (`v2 = v2.rotate_left(32)`)
instead of overwriting `v2` with the rotated `v0`. -/
def siproundRef (s : V4) : V4 :=
  let v0 := wadd s.v0 s.v1
  let v2 := wadd s.v2 s.v3
  let v1 := rotl64 s.v1 13
  let v3 := rotl64 s.v3 16
  let v1 := v1 ^^^ v0
  let v3 := v3 ^^^ v2
  let v0 := rotl64 v0 32
  let v2 := wadd v2 v1
  let v0 := wadd v0 v3
  let v1 := rotl64 v1 17
  let v3 := rotl64 v3 21
  let v1 := v1 ^^^ v2
  let v3 := v3 ^^^ v0
  let v2 := rotl64 v2 32
  ⟨v0, v1, v2, v3⟩

/-- State of `SipRng` (`src/siprng.rs`): four 64-bit mixing registers, a
64-bit advance counter and a length field (`usize`, modelled as wrapping at
`2 ^ 64`). -/
structure SipRng where
  v0 : Nat
  v1 : Nat
  v2 : Nat
  v3 : Nat
  ctr : Nat
  len : Nat
deriving DecidableEq

/-- `SipRng::new` (`src/siprng.rs`). -/
def SipRng.new (k0 k1 : Nat) : SipRng :=
  ⟨k0 ^^^ sipC0, k1 ^^^ sipC1, k0 ^^^ sipC2, k1 ^^^ sipC3, 0, 1⟩

/-- `SipRng::advance` (`src/siprng.rs`): XOR the counter into `v3`, apply
the round, XOR the counter into `v0`, increment the counter wrapping.  The
length field is untouched and no overflow check is performed. -/
def SipRng.advance (s : SipRng) : SipRng :=
  let m := sipround ⟨s.v0, s.v1, s.v2, s.v3 ^^^ s.ctr⟩
  ⟨m.v0 ^^^ s.ctr, m.v1, m.v2, m.v3, wadd s.ctr 1, s.len⟩

/-- `SipRng::descend` (`src/siprng.rs`): XOR the branch index into `v3`,
apply the round, XOR the index into `v0`, increment the length wrapping,
reset the counter to zero. -/
def SipRng.descend (s : SipRng) (i : Nat) : SipRng :=
  let m := sipround ⟨s.v0, s.v1, s.v2, s.v3 ^^^ i⟩
  ⟨m.v0 ^^^ i, m.v1, m.v2, m.v3, 0, wadd s.len 1⟩

/-- The four mixing registers of a `SipRng` state. -/
def SipRng.regs (s : SipRng) : V4 := ⟨s.v0, s.v1, s.v2, s.v3⟩

/-- `SipRng::next_u64` (`src/siprng.rs`): advance, then finalize a copy of
the registers (length-derived constant, one round, `0xff` constant, three
more rounds) and output the XOR of the four registers.  Returns the output
together with the post-advance state. -/
def SipRng.nextU64 (s : SipRng) : Nat × SipRng :=
  let s1 := s.advance
  let len := (s1.len <<< 56) % 2 ^ 64
  let a : V4 := ⟨s1.v0, s1.v1, s1.v2, s1.v3 ^^^ len⟩
  let b := sipround a
  let c : V4 := ⟨b.v0 ^^^ len, b.v1, b.v2 ^^^ 0xff, b.v3⟩
  let d := sipround (sipround (sipround c))
  (d.v0 ^^^ d.v1 ^^^ d.v2 ^^^ d.v3, s1)

/-- `SeedableRng::reseed` for `SipRng` (`src/siprng.rs`): overwrite the four
registers from the seed words and the constants, reset `len` to 1 and `ctr`
to 0.  The previous state `s` is discarded entirely. -/
def SipRng.reseed (s : SipRng) (seed : Nat × Nat) : SipRng :=
  ⟨seed.1 ^^^ sipC0, seed.2 ^^^ sipC1, seed.1 ^^^ sipC2, seed.2 ^^^ sipC3, 0, 1⟩

/-- `SeedableRng::from_seed` for `SipRng` (`src/siprng.rs`). -/
def SipRng.fromSeed (seed : Nat × Nat) : SipRng := SipRng.new seed.1 seed.2

/-- `SipPrf` (`src/siprng.rs`): a frozen copy of a `SipRng` state. -/
structure SipPrf where
  state : SipRng
deriving DecidableEq

/-- `SplitPrf::call` for `SipPrf` (`src/siprng.rs`): clone the captured
state and descend the clone with the given index. -/
def SipPrf.call (f : SipPrf) (i : Nat) : SipRng := SipRng.descend f.state i

/-- `SplitRng::splitn` for `SipRng` (`src/siprng.rs`): freeze the state. -/
def SipRng.splitn (s : SipRng) : SipPrf := ⟨s⟩

/-- `call` invoked through a shared reference (`fn call(&self, i)`): the
receiver cannot be mutated, so an invocation yields the constructed
generator together with the factory, which remains as it was. -/
def SipPrf.invoke (f : SipPrf) (i : Nat) : SipRng × SipPrf := (f.call i, f)

/-- The first `n` 64-bit outputs of a `SipRng`. -/
def sipOutputs : Nat → SipRng → List Nat
  | 0, _ => []
  | Nat.succ n, s =>
    let p := SipRng.nextU64 s
    p.1 :: sipOutputs n p.2

/-- Modelled from the spec (section 4.2 and section 7), for comparison with
`SipRng.advance`: increment the counter wrapping and, if it wrapped to
zero, perform a cycle-avoidance descent with branch index 0. -/
def sipAdvanceClaim (s : SipRng) : SipRng :=
  let a := SipRng.advance s
  if a.ctr = 0 then SipRng.descend a 0 else a

/-- A concrete `SipRng` state whose advance counter is at its maximum:
the state `SipRng.new 0 0` with `ctr` set to `2 ^ 64 - 1`. -/
def sipWrapState : SipRng := ⟨sipC0, sipC1, sipC2, sipC3, 2 ^ 64 - 1, 1⟩

/-
The Chaskey-based backend, from `src/chaskeyrng.rs`.
-/

/-- `times_two` (`src/chaskeyrng.rs`), the Chaskey key-schedule transform. -/
def times_two (key : V4) : V4 :=
  ⟨((key.v0 <<< 1) % 2 ^ 32) ^^^ (if key.v3 >>> 31 = 0 then 0x00 else 0x87),
   ((key.v1 <<< 1) % 2 ^ 32) ^^^ (key.v0 >>> 31),
   ((key.v2 <<< 1) % 2 ^ 32) ^^^ (key.v1 >>> 31),
   ((key.v3 <<< 1) % 2 ^ 32) ^^^ (key.v2 >>> 31)⟩

/-- `xor_u32x4` (`src/chaskeyrng.rs`). -/
def xor_u32x4 (state block : V4) : V4 :=
  ⟨state.v0 ^^^ block.v0, state.v1 ^^^ block.v1,
   state.v2 ^^^ block.v2, state.v3 ^^^ block.v3⟩

/-- The Chaskey round function `round` (`src/chaskeyrng.rs`), translated
statement by statement. -/
def Chaskey.round (v : V4) : V4 :=
  let v0 := wadd32 v.v0 v.v1
  let v2 := wadd32 v.v2 v.v3
  let v1 := rotl32 v.v1 5
  let v3 := rotl32 v.v3 8
  let v1 := v1 ^^^ v0
  let v3 := v3 ^^^ v2
  let v0 := rotl32 v0 16
  let v2 := wadd32 v2 v1
  let v0 := wadd32 v0 v3
  let v1 := rotl32 v1 7
  let v3 := rotl32 v3 13
  let v1 := v1 ^^^ v2
  let v3 := v3 ^^^ v0
  let v2 := rotl32 v2 16
  ⟨v0, v1, v2, v3⟩

/-- `permute4` (`src/chaskeyrng.rs`): four Chaskey rounds. -/
def permute4 (state : V4) : V4 :=
  Chaskey.round (Chaskey.round (Chaskey.round (Chaskey.round state)))

/-- `permute8` (`src/chaskeyrng.rs`): the 8-round Chaskey permutation. -/
def permute8 (state : V4) : V4 := permute4 (permute4 state)

/-- `lsb32` (`src/chaskeyrng.rs`). -/
def lsb32 (n : Nat) : Nat := n &&& 0xffffffff

/-- `msb32` (`src/chaskeyrng.rs`). -/
def msb32 (n : Nat) : Nat := lsb32 (n >>> 32)

/-- State of `ChaskeyRng` (`src/chaskeyrng.rs`): the live 128-bit state
`v`, the derived subkey `k1`, the 64-bit block counter, the 4-word output
buffer and the read cursor `i`. -/
structure ChaskeyRng where
  v : V4
  k1 : V4
  ctr : Nat
  buf : V4
  i : Nat
deriving DecidableEq

/-- `ChaskeyRng::advance` (`src/chaskeyrng.rs`), translated statement by
statement: the code XORs the counter block and the subkey into `buf` (the
output buffer), permutes `buf`, XORs the subkey back into `buf`, then
increments the counter and resets the cursor.  The live state `v` is not
read. -/
def ChaskeyRng.advance (s : ChaskeyRng) : ChaskeyRng :=
  let block : V4 := ⟨0, 0, lsb32 s.ctr, msb32 s.ctr⟩
  let b := xor_u32x4 s.buf block
  let b := xor_u32x4 b s.k1
  let b := permute8 b
  let b := xor_u32x4 b s.k1
  ⟨s.v, s.k1, wadd s.ctr 1, b, 0⟩

/-- `ChaskeyRng::new` (`src/chaskeyrng.rs`). -/
def ChaskeyRng.new (seed : V4) : ChaskeyRng :=
  ChaskeyRng.advance ⟨seed, times_two seed, 0, ⟨0, 0, 0, 0⟩, 0⟩

/-- `ChaskeyRng::reseed` (`src/chaskeyrng.rs`): overwrite every field from
the seed exactly as `new` does, then advance.  The previous state `s` is
discarded entirely. -/
def ChaskeyRng.reseed (s : ChaskeyRng) (seed : V4) : ChaskeyRng :=
  ChaskeyRng.advance ⟨seed, times_two seed, 0, ⟨0, 0, 0, 0⟩, 0⟩

/-- `SeedableRng::from_seed` for `ChaskeyRng` (`src/chaskeyrng.rs`). -/
def ChaskeyRng.fromSeed (seed : V4) : ChaskeyRng := ChaskeyRng.new seed

/-- `ChaskeyRng::clone` (`src/chaskeyrng.rs`). -/
def ChaskeyRng.clone (s : ChaskeyRng) : ChaskeyRng :=
  ⟨s.v, s.k1, s.ctr, s.buf, s.i⟩

/-- `ChaskeyRng::descend` (`src/chaskeyrng.rs`), translated statement by
statement: XOR the branch block into `buf`, permute `v`, reset the counter,
then advance. -/
def ChaskeyRng.descend (s : ChaskeyRng) (i : Nat) : ChaskeyRng :=
  let block : V4 := ⟨0xffffffff, i, lsb32 s.ctr, msb32 s.ctr⟩
  ChaskeyRng.advance ⟨permute8 s.v, s.k1, 0, xor_u32x4 s.buf block, s.i⟩

/-- `ChaskeyPrf` (`src/chaskeyrng.rs`). -/
structure ChaskeyPrf where
  state : ChaskeyRng
deriving DecidableEq

/-- `SplitPrf::call` for `ChaskeyPrf` (`src/chaskeyrng.rs`): clone the
captured state and descend the clone with the given index. -/
def ChaskeyPrf.call (f : ChaskeyPrf) (i : Nat) : ChaskeyRng :=
  ChaskeyRng.descend (ChaskeyRng.clone f.state) i

/-- `call` invoked through a shared reference, as for `SipPrf.invoke`. -/
def ChaskeyPrf.invoke (f : ChaskeyPrf) (i : Nat) : ChaskeyRng × ChaskeyPrf :=
  (f.call i, f)

/-- `ChaskeyRng::split` (`src/chaskeyrng.rs`): clone, descend the original
with 0 and the clone with 1; returns (child, mutated parent). -/
def ChaskeyRng.split (s : ChaskeyRng) : ChaskeyRng × ChaskeyRng :=
  (ChaskeyRng.descend (ChaskeyRng.clone s) 1, ChaskeyRng.descend s 0)

/-- Indexing into a 4-word buffer, the model of `buf[i]`. -/
def V4.get (w : V4) (idx : Nat) : Nat :=
  if idx = 0 then w.v0 else if idx = 1 then w.v1 else if idx = 2 then w.v2 else w.v3

/-- `Rng::next_u32` for `ChaskeyRng` (`src/chaskeyrng.rs`): refill the
buffer when the cursor is exhausted, then return the word under the cursor
and increment the cursor. -/
def ChaskeyRng.nextU32 (s : ChaskeyRng) : Nat × ChaskeyRng :=
  let s1 := if s.i ≥ 4 then s.advance else s
  (V4.get s1.buf s1.i, ⟨s1.v, s1.k1, s1.ctr, s1.buf, s1.i + 1⟩)

/-- The first `n` 32-bit outputs of a `ChaskeyRng`. -/
def chaskeyOutputs : Nat → ChaskeyRng → List Nat
  | 0, _ => []
  | Nat.succ n, s =>
    let p := ChaskeyRng.nextU32 s
    p.1 :: chaskeyOutputs n p.2

/-- Modelled from the spec (section 4.3), for comparison with
`ChaskeyRng.advance`: the refilled buffer is claimed to equal
`permute8 (v XOR k1 XOR block(ctr)) XOR k1`, built from the live state `v`
rather than from the previous buffer contents. -/
def chaskeyAdvanceClaim (s : ChaskeyRng) : V4 :=
  let block : V4 := ⟨0, 0, lsb32 s.ctr, msb32 s.ctr⟩
  xor_u32x4 (permute8 (xor_u32x4 (xor_u32x4 s.v block) s.k1)) s.k1

/-- The pre-advance state built by `ChaskeyRng::new [1, 0, 0, 0]`: fresh
fields with `v = [1,0,0,0]`, `k1 = times_two [1,0,0,0]` and a zeroed
buffer, just before the constructor's call to `advance`. -/
def chaskeyBugState : ChaskeyRng :=
  ⟨⟨1, 0, 0, 0⟩, times_two ⟨1, 0, 0, 0⟩, 0, ⟨0, 0, 0, 0⟩, 0⟩

/-
The TwoLCG backend, from `src/twolcg.rs`.
-/

/-- Constant `MASK` of `TwoLcgRng::next_u64` (`src/twolcg.rs`). -/
def lcgMASK : Nat := 0x3F

/-- Constant `C0` of `TwoLcgRng::next_u64` (`src/twolcg.rs`). -/
def lcgC0 : Nat := 2685821657736338717

/-- Constant `C1` of `TwoLcgRng::next_u64` (`src/twolcg.rs`). -/
def lcgC1 : Nat := 3202034522624059733

/-- Constant `C2` of `TwoLcgRng::next_u64` (`src/twolcg.rs`). -/
def lcgC2 : Nat := 3935559000370003845

/-- State of `TwoLcgRng` (`src/twolcg.rs`): two state words and two odd
multipliers. -/
structure TwoLcgRng where
  s1 : Nat
  s2 : Nat
  g1 : Nat
  g2 : Nat
deriving DecidableEq

/-- `TwoLcgRng::new` (`src/twolcg.rs`): the low bits of `g1` and `g2` are
forced to 1. -/
def TwoLcgRng.new (s1 s2 g1 g2 : Nat) : TwoLcgRng :=
  ⟨s1, s2, g1 ||| 1, g2 ||| 1⟩

/-- `Rng::next_u64` for `TwoLcgRng` (`src/twolcg.rs`), translated statement
by statement over `Wrapping<u64>` arithmetic. -/
def TwoLcgRng.nextU64 (s : TwoLcgRng) : Nat × TwoLcgRng :=
  let r := ((s.s1 <<< 32) % 2 ^ 64) ||| (s.s1 >>> 32)
  let r := r ^^^ s.s2
  let t := s.s1 >>> 58
  let r := ((r <<< (t &&& lcgMASK)) % 2 ^ 64) ||| (r >>> (((2 ^ 64 - t) % 2 ^ 64) &&& lcgMASK))
  let r := (r * lcgC0) % 2 ^ 64
  (r ^^^ (r >>> 32),
   ⟨(s.s1 * lcgC1 + s.g1) % 2 ^ 64, (s.s2 * lcgC2 + s.g2) % 2 ^ 64, s.g1, s.g2⟩)

/-- `SeedableRng::from_seed` for `TwoLcgRng` (`src/twolcg.rs`). -/
def TwoLcgRng.fromSeed (seed : V4) : TwoLcgRng :=
  ⟨seed.v0, seed.v1, seed.v2 ||| 1, seed.v3 ||| 1⟩

/-- `SeedableRng::reseed` for `TwoLcgRng` (`src/twolcg.rs`): every field is
overwritten from the seed; the previous state `s` is discarded entirely. -/
def TwoLcgRng.reseed (s : TwoLcgRng) (seed : V4) : TwoLcgRng :=
  ⟨seed.v0, seed.v1, seed.v2 ||| 1, seed.v3 ||| 1⟩

/-- `TwoLcgPrf` (`src/twolcg.rs`): the captured odd multiplier. -/
structure TwoLcgPrf where
  m : Nat
deriving DecidableEq

/-- `SplitRng::splitn` for `TwoLcgRng` (`src/twolcg.rs`): capture the next
64-bit output with its low bit forced to 1; returns (factory, mutated
generator). -/
def TwoLcgRng.splitn (s : TwoLcgRng) : TwoLcgPrf × TwoLcgRng :=
  let p := TwoLcgRng.nextU64 s
  (⟨p.1 ||| 1⟩, p.2)

/-- `SplitPrf::call` for `TwoLcgPrf` (`src/twolcg.rs`).  The index `k` is a
`u32`, and the successors `k+1`, `k+2`, `k+3` are computed in 32-bit
arithmetic (hence reduced modulo `2 ^ 32`) before being widened to 64 bits
and multiplied. -/
def TwoLcgPrf.call (f : TwoLcgPrf) (k : Nat) : TwoLcgRng :=
  let k0 := k
  let k1 := (k + 1) % 2 ^ 32
  let k2 := (k + 2) % 2 ^ 32
  let k3 := (k + 3) % 2 ^ 32
  TwoLcgRng.new ((4 * k0 * f.m) % 2 ^ 64) ((4 * k2 * f.m) % 2 ^ 64)
    ((4 * k1 * f.m) % 2 ^ 64) ((4 * k3 * f.m) % 2 ^ 64)

/-- `call` invoked through a shared reference, as for `SipPrf.invoke`. -/
def TwoLcgPrf.invoke (f : TwoLcgPrf) (k : Nat) : TwoLcgRng × TwoLcgPrf :=
  (f.call k, f)

/-- `SplitRng::split` for `TwoLcgRng` (`src/twolcg.rs`): draw a fresh
4-word seed from the generator and construct the child from it; returns
(child, mutated parent). -/
def TwoLcgRng.split (s : TwoLcgRng) : TwoLcgRng × TwoLcgRng :=
  let p0 := TwoLcgRng.nextU64 s
  let p1 := TwoLcgRng.nextU64 p0.2
  let p2 := TwoLcgRng.nextU64 p1.2
  let p3 := TwoLcgRng.nextU64 p2.2
  (TwoLcgRng.fromSeed ⟨p0.1, p1.1, p2.1, p3.1⟩, p3.2)

/-- The first `n` 64-bit outputs of a `TwoLcgRng`. -/
def twolcgOutputs : Nat → TwoLcgRng → List Nat
  | 0, _ => []
  | Nat.succ n, s =>
    let p := TwoLcgRng.nextU64 s
    p.1 :: twolcgOutputs n p.2

/-- The closed-form branch construction stated by the spec (section 4.4),
for comparison with `TwoLcgPrf.call`: the four seed words are the exact
consecutive multiples `4 k m, 4 (k+2) m, 4 (k+1) m, 4 (k+3) m` reduced
modulo `2 ^ 64`, with no 32-bit reduction of the successor indices. -/
def TwoLcg.callSpec (m k : Nat) : TwoLcgRng :=
  TwoLcgRng.new ((4 * k * m) % 2 ^ 64) ((4 * (k + 2) * m) % 2 ^ 64)
    ((4 * (k + 1) * m) % 2 ^ 64) ((4 * (k + 3) * m) % 2 ^ 64)

/-
The generic composition, from `src/generic.rs`.  The crate instantiates it
with `SipRng` as the splitting component (`src/lib.rs`, `type Split<Rng>`),
and the sequential component is any `Rand` type drawn from the splitter;
the draw is modelled by an arbitrary function `genR : SipRng → R × SipRng`
returning the drawn value and the mutated splitter.
-/

/-- `Split<S, R>` of `src/generic.rs` with `S = SipRng`. -/
structure GSplit (R : Type) where
  splitter : SipRng
  sequential : R

/-- `Branch<S, R>` of `src/generic.rs` with `S = SipRng`: the captured
branch of the splitting component (the `PhantomData` field carries no
data). -/
structure GBranch where
  prf : SipPrf

/-- `SeedableRng::from_seed` for `Split` (`src/generic.rs`): build the
splitter from the seed, then immediately draw the sequential component
from the splitter's post-construction state. -/
def GSplit.fromSeed {R : Type} (genR : SipRng → R × SipRng) (seed : Nat × Nat) :
    GSplit R :=
  let s := SipRng.fromSeed seed
  let p := genR s
  ⟨p.2, p.1⟩

/-- `SeedableRng::reseed` for `Split` (`src/generic.rs`): reseed the
splitter, then immediately draw a fresh sequential component from the
splitter's post-reseed state. -/
def GSplit.reseed {R : Type} (genR : SipRng → R × SipRng) (c : GSplit R)
    (seed : Nat × Nat) : GSplit R :=
  let s := SipRng.reseed c.splitter seed
  let p := genR s
  ⟨p.2, p.1⟩

/-- `SplitRng::splitn` for `Split` (`src/generic.rs`). -/
def GSplit.splitn {R : Type} (c : GSplit R) : GBranch :=
  ⟨SipRng.splitn c.splitter⟩

/-- `RngBranch::branch` for `Branch` (`src/generic.rs`): call the captured
branch with the index, then immediately draw the sequential component from
the resulting splitter state. -/
def GBranch.branch {R : Type} (genR : SipRng → R × SipRng) (b : GBranch)
    (i : Nat) : GSplit R :=
  let s := SipPrf.call b.prf i
  let p := genR s
  ⟨p.2, p.1⟩

/-- Sequential output of a composite (`Rng` for `Split`, `src/generic.rs`):
delegate to the sequential component, whose stepping is modelled by an
arbitrary function `nextR`. -/
def GSplit.next {R : Type} (nextR : R → Nat × R) (c : GSplit R) :
    Nat × GSplit R :=
  let p := nextR c.sequential
  (p.1, ⟨c.splitter, p.2⟩)

/-- The first `n` outputs of a composite generator. -/
def gsplitOutputs {R : Type} (nextR : R → Nat × R) :
    Nat → GSplit R → List Nat
  | 0, _ => []
  | Nat.succ n, c =>
    let p := GSplit.next nextR c
    p.1 :: gsplitOutputs nextR n p.2

/-
Type-directed generation, from `src/lib.rs`.
-/

/-- The 2-tuple `SplitRand` instance produced by `tuple_impl!` in
`src/lib.rs`: each component is generated as
`_rng.split().split_gen::<T>()`, i.e. from its own freshly split child, in
left-to-right order.  `split` models `SplitRng::split`, returning (child,
mutated parent); `gA` and `gB` model `split_gen` at the two component
types, consuming the child by value. -/
def splitRand2 {R α β : Type} (split : R → R × R) (gA : R → α) (gB : R → β)
    (r : R) : (α × β) × R :=
  let p := split r
  let a := gA p.1
  let q := split p.2
  let b := gB q.1
  ((a, b), q.2)

/-- The fixed-size-array `SplitRand` instances produced by `array_impl!` in
`src/lib.rs`, for an arbitrary length: each element is generated as
`_rng.split().split_gen::<T>()` from its own freshly split child, in
order.  The per-element generators are passed as a list so that the
independence of one element from another's generation logic can be
stated. -/
def listSplitRand {R α : Type} (split : R → R × R) :
    List (R → α) → R → List α × R
  | [], r => ([], r)
  | g :: gs, r =>
    let p := split r
    let q := listSplitRand split gs p.2
    (g p.1 :: q.1, q.2)

/-
Theorems settling the claims.
-/

/-- Claim C1: tuple and array generation split off exactly one child per
component and never draw from the parent directly.  Hence, for any
splittable generator type, generating a 2-tuple `(T0, T0)` and a 2-tuple
`(T1, T0)` from the same starting state yields identical second components
and identical final states, whatever the generation functions of the first
component are; similarly the tail of a generated array and the final state
do not depend on the first element's generator.  The fact is also
instantiated at the `TwoLcgRng` backend's `split`. -/
theorem tuple_generation_component_independence :
    (∀ {R α0 α1 β : Type} (split : R → R × R) (gT0 : R → α0) (gT1 : R → α1)
        (g : R → β) (r : R),
      (splitRand2 split gT0 g r).1.2 = (splitRand2 split gT1 g r).1.2 ∧
      (splitRand2 split gT0 g r).2 = (splitRand2 split gT1 g r).2) ∧
    (∀ {R α : Type} (split : R → R × R) (gA gB : R → α) (gs : List (R → α))
        (r : R),
      (listSplitRand split (gA :: gs) r).1.tail =
        (listSplitRand split (gB :: gs) r).1.tail ∧
      (listSplitRand split (gA :: gs) r).2 =
        (listSplitRand split (gB :: gs) r).2) ∧
    (∀ (gT0 gT1 g : TwoLcgRng → List Nat) (r : TwoLcgRng),
      (splitRand2 TwoLcgRng.split gT0 g r).1.2 =
        (splitRand2 TwoLcgRng.split gT1 g r).1.2 ∧
      (splitRand2 TwoLcgRng.split gT0 g r).2 =
        (splitRand2 TwoLcgRng.split gT1 g r).2) := by
  refine ⟨fun split gT0 gT1 g r => ⟨rfl, rfl⟩, ?_, fun gT0 gT1 g r => ⟨rfl, rfl⟩⟩
  intro R α split gA gB gs r
  constructor
  · simp only [listSplitRand, List.tail_cons]
  · simp only [listSplitRand]

/-- Claim C2 (counterexample): at a state whose counter is `2 ^ 64 - 1`,
`SipRng.advance` wraps the counter to zero but performs no cycle-avoidance
descent: the result differs from the claimed behaviour (`sipAdvanceClaim`,
which descends with branch index 0 on wrap), and in particular the length
field stays 1 instead of being incremented by the descent. -/
theorem sip_advance_wrap_no_descent_at_max_counter :
    (SipRng.advance sipWrapState).ctr = 0 ∧
    (SipRng.advance sipWrapState).len = 1 ∧
    SipRng.advance sipWrapState ≠ sipAdvanceClaim sipWrapState := by
  refine ⟨by decide, by decide, by decide⟩

/-- Claim C2 (amended): sequential advance increments the counter modulo
`2 ^ 64` and leaves the length field unchanged — no cycle-avoidance
descent is performed when the counter wraps to zero, so the counter
silently returns to previously used values within the same stream. -/
theorem sip_advance_counter_wraps_silently :
    ∀ s : SipRng,
      (SipRng.advance s).ctr = (s.ctr + 1) % 2 ^ 64 ∧
      (SipRng.advance s).len = s.len ∧
      (SipRng.advance { s with ctr := 2 ^ 64 - 1 }).ctr = 0 := by
  intro s
  refine ⟨rfl, rfl, ?_⟩
  show (2 ^ 64 - 1 + 1) % 2 ^ 64 = 0
  norm_num

/-- Claim C3: the code contradicts the claimed advance formula.  At the
freshly built pre-advance state of `ChaskeyRng::new [1,0,0,0]`, the
refilled buffer computed by `ChaskeyRng.advance` differs from
`permute8 (v XOR k1 XOR block(ctr)) XOR k1` (`chaskeyAdvanceClaim`),
because the code builds the new buffer from the previous buffer contents
instead of from the live state `v`; the counter increment, cursor reset
and preservation of `v` and `k1` do hold. -/
theorem chaskey_advance_uses_buffer_not_state :
    (ChaskeyRng.advance chaskeyBugState).buf ≠ chaskeyAdvanceClaim chaskeyBugState ∧
    (ChaskeyRng.advance chaskeyBugState).v = chaskeyBugState.v ∧
    (ChaskeyRng.advance chaskeyBugState).k1 = chaskeyBugState.k1 ∧
    (ChaskeyRng.advance chaskeyBugState).ctr = 1 ∧
    (ChaskeyRng.advance chaskeyBugState).i = 0 := by
  refine ⟨by decide, by decide, by decide, by decide, by decide⟩

/-- Claim C4: the Sip-style round of the source ends its second stage with
`v2 = rotl64 v0 32` — its result is exactly the SipHash reference round's
result with the `v2` register overwritten by the rotated final `v0` — and
the two rounds genuinely disagree, as shown at the registers (1, 2, 3, 4). -/
theorem sipround_deviates_from_reference_in_final_v2 :
    (∀ s : V4, sipround s = { siproundRef s with v2 := rotl64 (siproundRef s).v0 32 }) ∧
    sipround ⟨1, 2, 3, 4⟩ ≠ siproundRef ⟨1, 2, 3, 4⟩ := by
  refine ⟨fun s => rfl, by decide⟩

/-- Claim C5: for each of the three backends, reseeding any existing
instance with a seed yields exactly the state of a freshly constructed
generator from that seed, and hence the subsequent output sequences are
identical. -/
theorem reseed_equals_fresh_construction :
    (∀ (s : SipRng) (seed : Nat × Nat),
      SipRng.reseed s seed = SipRng.fromSeed seed ∧
      ∀ n, sipOutputs n (SipRng.reseed s seed) = sipOutputs n (SipRng.fromSeed seed)) ∧
    (∀ (s : ChaskeyRng) (seed : V4),
      ChaskeyRng.reseed s seed = ChaskeyRng.fromSeed seed ∧
      ∀ n, chaskeyOutputs n (ChaskeyRng.reseed s seed) =
        chaskeyOutputs n (ChaskeyRng.fromSeed seed)) ∧
    (∀ (s : TwoLcgRng) (seed : V4),
      TwoLcgRng.reseed s seed = TwoLcgRng.fromSeed seed ∧
      ∀ n, twolcgOutputs n (TwoLcgRng.reseed s seed) =
        twolcgOutputs n (TwoLcgRng.fromSeed seed)) :=
  ⟨fun s seed => ⟨rfl, fun n => rfl⟩,
   fun s seed => ⟨rfl, fun n => rfl⟩,
   fun s seed => ⟨rfl, fun n => rfl⟩⟩

/-- Claim C6: for each backend's branch object, `call` is invoked through a
shared reference, so an invocation leaves the factory unchanged, and two
successive invocations at the same index return identical generator
states — hence generators with identical subsequent output sequences. -/
theorem prf_call_pure_and_factory_unchanged :
    (∀ (f : SipPrf) (i n : Nat),
      (SipPrf.invoke f i).2 = f ∧
      (SipPrf.invoke f i).1 = (SipPrf.invoke (SipPrf.invoke f i).2 i).1 ∧
      sipOutputs n (SipPrf.invoke f i).1 =
        sipOutputs n (SipPrf.invoke (SipPrf.invoke f i).2 i).1) ∧
    (∀ (f : ChaskeyPrf) (i n : Nat),
      (ChaskeyPrf.invoke f i).2 = f ∧
      (ChaskeyPrf.invoke f i).1 = (ChaskeyPrf.invoke (ChaskeyPrf.invoke f i).2 i).1 ∧
      chaskeyOutputs n (ChaskeyPrf.invoke f i).1 =
        chaskeyOutputs n (ChaskeyPrf.invoke (ChaskeyPrf.invoke f i).2 i).1) ∧
    (∀ (f : TwoLcgPrf) (k n : Nat),
      (TwoLcgPrf.invoke f k).2 = f ∧
      (TwoLcgPrf.invoke f k).1 = (TwoLcgPrf.invoke (TwoLcgPrf.invoke f k).2 k).1 ∧
      twolcgOutputs n (TwoLcgPrf.invoke f k).1 =
        twolcgOutputs n (TwoLcgPrf.invoke (TwoLcgPrf.invoke f k).2 k).1) :=
  ⟨fun f i n => ⟨rfl, rfl, rfl⟩,
   fun f i n => ⟨rfl, rfl, rfl⟩,
   fun f k n => ⟨rfl, rfl, rfl⟩⟩

/-- Claim C7 (counterexample): the closed-form scheme fails at index
`2 ^ 32 - 1`: with captured multiplier 3, `call` does not build the four
consecutive multiples required by `TwoLcg.callSpec`, because the successor
indices wrap in 32-bit arithmetic. -/
theorem twolcg_call_closed_form_fails_at_wrap :
    TwoLcgPrf.call ⟨3⟩ (2 ^ 32 - 1) ≠ TwoLcg.callSpec 3 (2 ^ 32 - 1) := by
  decide

/-- Claim C7 (amended): `splitn` captures the next 64-bit output with its
low bit forced to 1 as the multiplier, and for every index `k` with
`k + 3 < 2 ^ 32` (so that no 32-bit successor wraps), `call k` constructs
the generator of the closed-form scheme: seed words
`4 k m, 4 (k+2) m, 4 (k+1) m, 4 (k+3) m` modulo `2 ^ 64`, the last two
with their low bits forced to 1. -/
theorem twolcg_call_closed_form_below_wrap (m k : Nat) (h : k + 3 < 2 ^ 32) :
    TwoLcgPrf.call ⟨m⟩ k = TwoLcg.callSpec m k ∧
    ∀ g : TwoLcgRng, (TwoLcgRng.splitn g).1 = ⟨(TwoLcgRng.nextU64 g).1 ||| 1⟩ := by
  constructor
  · have h1 : (k + 1) % 2 ^ 32 = k + 1 := Nat.mod_eq_of_lt (by omega)
    have h2 : (k + 2) % 2 ^ 32 = k + 2 := Nat.mod_eq_of_lt (by omega)
    have h3 : (k + 3) % 2 ^ 32 = k + 3 := Nat.mod_eq_of_lt h
    simp only [TwoLcgPrf.call, TwoLcg.callSpec, h1, h2, h3]
  · intro g
    rfl

/-- Witness for the amended claim C7 at the concrete multiplier 3 and
index 5. -/
theorem twolcg_call_closed_form_below_wrap_witness :
    5 + 3 < 2 ^ 32 ∧ TwoLcgPrf.call ⟨3⟩ 5 = TwoLcg.callSpec 3 5 :=
  ⟨by norm_num, (twolcg_call_closed_form_below_wrap 3 5 (by norm_num)).1⟩

/-- Claim C8: in the generic composition (instantiated by the crate with
`SipRng` as splitter), construction from seed, reseed and a branch call
each draw the sequential component from the splitter's post-change state,
so the composite is a function of the splitter state alone: reseeding any
composite equals fresh construction, any two composites reseeded with the
same seed are equal, and their output sequences coincide. -/
theorem split_composition_draws_sequential_from_post_change_state :
    ∀ {R : Type} (genR : SipRng → R × SipRng),
      (∀ (c : GSplit R) (seed : Nat × Nat),
        GSplit.reseed genR c seed = GSplit.fromSeed genR seed) ∧
      (∀ seed : Nat × Nat,
        (GSplit.fromSeed genR seed).sequential = (genR (SipRng.fromSeed seed)).1 ∧
        (GSplit.fromSeed genR seed).splitter = (genR (SipRng.fromSeed seed)).2) ∧
      (∀ (b : GBranch) (i : Nat),
        (GBranch.branch genR b i).sequential = (genR (SipPrf.call b.prf i)).1 ∧
        (GBranch.branch genR b i).splitter = (genR (SipPrf.call b.prf i)).2) ∧
      (∀ (c c' : GSplit R) (seed : Nat × Nat),
        GSplit.reseed genR c seed = GSplit.reseed genR c' seed) ∧
      (∀ (nextR : R → Nat × R) (c : GSplit R) (seed : Nat × Nat) (n : Nat),
        gsplitOutputs nextR n (GSplit.reseed genR c seed) =
          gsplitOutputs nextR n (GSplit.fromSeed genR seed)) :=
  fun genR =>
    ⟨fun c seed => rfl,
     fun seed => ⟨rfl, rfl⟩,
     fun b i => ⟨rfl, rfl⟩,
     fun c c' seed => rfl,
     fun nextR c seed n => rfl⟩

/-- Claim C9: the successor indices of `TwoLcgPrf.call` wrap modulo
`2 ^ 32`: for every multiplier `m`, `call (2 ^ 32 - 1)` builds its
generator from the multiples `4 (2^32 - 1) m`, `4 * 1 * m`, `4 * 0 * m`
and `4 * 2 * m`, its `g1` parameter is therefore 1, and the result is not
the closed-form scheme's generator (shown at `m = 5`). -/
theorem twolcg_call_index_wrap_32bit :
    (∀ m : Nat, TwoLcgPrf.call ⟨m⟩ (2 ^ 32 - 1) =
      TwoLcgRng.new ((4 * (2 ^ 32 - 1) * m) % 2 ^ 64) ((4 * 1 * m) % 2 ^ 64)
        ((4 * 0 * m) % 2 ^ 64) ((4 * 2 * m) % 2 ^ 64)) ∧
    (∀ m : Nat, (TwoLcgPrf.call ⟨m⟩ (2 ^ 32 - 1)).g1 = 1) ∧
    TwoLcgPrf.call ⟨5⟩ (2 ^ 32 - 1) ≠ TwoLcg.callSpec 5 (2 ^ 32 - 1) := by
  have e1 : (2 ^ 32 - 1 + 1) % 2 ^ 32 = 0 := by norm_num
  have e2 : (2 ^ 32 - 1 + 2) % 2 ^ 32 = 1 := by norm_num
  have e3 : (2 ^ 32 - 1 + 3) % 2 ^ 32 = 2 := by norm_num
  refine ⟨?_, ?_, by decide⟩
  · intro m
    simp only [TwoLcgPrf.call, e1, e2, e3]
  · intro m
    simp only [TwoLcgPrf.call, TwoLcgRng.new, e1]
    simp

/-- Claim C10: for every `SipRng` state, `advance` applies to the four
mixing registers exactly the transformation that `descend` with branch
index equal to the current counter applies; the two operations differ only
in the counter and length bookkeeping.  In particular, on a freshly
constructed generator (counter 0), one advance and one descend with branch
index 0 produce identical register values. -/
theorem sip_advance_descend_same_register_transform :
    ∀ s : SipRng,
      (SipRng.advance s).regs = (SipRng.descend s s.ctr).regs ∧
      (SipRng.advance s).ctr = (s.ctr + 1) % 2 ^ 64 ∧
      (SipRng.advance s).len = s.len ∧
      (SipRng.descend s s.ctr).ctr = 0 ∧
      (SipRng.descend s s.ctr).len = (s.len + 1) % 2 ^ 64 ∧
      (∀ k0 k1 : Nat,
        (SipRng.advance (SipRng.new k0 k1)).regs =
          (SipRng.descend (SipRng.new k0 k1) 0).regs) :=
  fun s => ⟨rfl, rfl, rfl, rfl, rfl, fun k0 k1 => rfl⟩
